import Mathlib

/-!
Verification of the Smart Home Energy Monitor calculation and reporting
pipeline (`energy_monitor/calculations.py`, `energy_monitor/reporting.py`,
and the alert gate in `main.py`).

Python floats are modelled as rational numbers (`ℚ`): every operation the
source performs on these values (multiplication, division by 1000, addition)
is exact real arithmetic in intent, and the spec states its numeric
properties up to floating tolerance, so `ℚ` is the faithful idealised model.
Python `ValueError` raising is modelled by `Except.error`; alert strings are
modelled by their data content (device, monthly kWh, threshold), since the
source only renders these values into a fixed message template for display.
-/

namespace EnergyMonitor

/-- The `Device` dataclass from `energy_monitor/models.py`. -/
structure Device where
  device_id : String
  name : String
  wattage : ℚ
  avg_hours_per_day : ℚ
  room_location : String
deriving DecidableEq

/-- `DAYS_PER_WEEK` from `energy_monitor/calculations.py`. -/
def DAYS_PER_WEEK : ℚ := 7

/-- `DAYS_PER_MONTH` from `energy_monitor/calculations.py` (simple forecast month length). -/
def DAYS_PER_MONTH : ℚ := 30

/-- `validate_price_per_kwh` from `energy_monitor/calculations.py`. -/
def validate_price_per_kwh (price : ℚ) : Except String Unit :=
  if price ≤ 0 then Except.error "Price per kWh must be greater than 0."
  else Except.ok ()

/-- `validate_device_values` from `energy_monitor/calculations.py`. -/
def validate_device_values (wattage hours : ℚ) : Except String Unit :=
  if wattage ≤ 0 then Except.error "Wattage must be greater than 0."
  else if hours < 0 then Except.error "Average hours per day cannot be negative."
  else if hours > 24 then Except.error "Average hours per day cannot exceed 24."
  else Except.ok ()

/-- `daily_kwh` from `energy_monitor/calculations.py`: kWh = (W * hours) / 1000. -/
def daily_kwh (wattage_w hours_per_day : ℚ) : ℚ :=
  (wattage_w * hours_per_day) / 1000

/-- `cost_for_kwh` from `energy_monitor/calculations.py`. -/
def cost_for_kwh (kwh price_per_kwh : ℚ) : ℚ :=
  kwh * price_per_kwh

/-- `daily_cost` from `energy_monitor/calculations.py`. -/
def daily_cost (wattage_w hours_per_day price_per_kwh : ℚ) : ℚ :=
  cost_for_kwh (daily_kwh wattage_w hours_per_day) price_per_kwh

/-- `weekly_cost` from `energy_monitor/calculations.py`. -/
def weekly_cost (wattage_w hours_per_day price_per_kwh : ℚ) : ℚ :=
  daily_cost wattage_w hours_per_day price_per_kwh * DAYS_PER_WEEK

/-- `monthly_cost` from `energy_monitor/calculations.py`. -/
def monthly_cost (wattage_w hours_per_day price_per_kwh : ℚ) : ℚ :=
  daily_cost wattage_w hours_per_day price_per_kwh * DAYS_PER_MONTH

/-- `monthly_kwh` from `energy_monitor/calculations.py`. -/
def monthly_kwh (wattage_w hours_per_day : ℚ) : ℚ :=
  daily_kwh wattage_w hours_per_day * DAYS_PER_MONTH

/-- Rule-1 message of `efficiency_suggestions` in `energy_monitor/reporting.py`. -/
def power_saving_suggestion : String :=
  "Consider using Power Saving Mode or reducing on-time (>12h/day)."

/-- Rule-2 message of `efficiency_suggestions` in `energy_monitor/reporting.py`. -/
def off_peak_suggestion : String :=
  "High wattage device: run during off-peak hours if available."

/-- Rule-3 message of `efficiency_suggestions` in `energy_monitor/reporting.py`. -/
def low_usage_suggestion : String :=
  "Usage is very low; verify hours/day is correct (data sanity check)."

/-- `efficiency_suggestions` from `energy_monitor/reporting.py`: the three
rules append their messages in source order (0.25 in the source is 1/4). -/
def efficiency_suggestions (device : Device) : List String :=
  (if 12 < device.avg_hours_per_day then [power_saving_suggestion] else []) ++
    (if 1000 ≤ device.wattage then [off_peak_suggestion] else []) ++
      (if 0 < device.avg_hours_per_day ∧ device.avg_hours_per_day ≤ 1 / 4 then
        [low_usage_suggestion] else [])

/-- An alert emitted by `high_usage_alerts` in `energy_monitor/reporting.py`,
modelled by the data the source interpolates into its message string. -/
structure Alert where
  device : Device
  mkwh : ℚ
  threshold : ℚ
deriving DecidableEq

/-- `high_usage_alerts` from `energy_monitor/reporting.py`: one alert per
device whose monthly kWh strictly exceeds the threshold, in input order. -/
def high_usage_alerts (devices : List Device) (monthly_kwh_threshold : ℚ) : List Alert :=
  devices.filterMap (fun d =>
    if monthly_kwh_threshold < monthly_kwh d.wattage d.avg_hours_per_day then
      some (Alert.mk d (monthly_kwh d.wattage d.avg_hours_per_day) monthly_kwh_threshold)
    else none)

/-- The alert gate in `main.py` (lines 66-70): `high_usage_alerts` is invoked
only when the threshold is positive; otherwise the empty list is used. -/
def main_alerts (devices : List Device) (threshold_kwh : ℚ) : List Alert :=
  if 0 < threshold_kwh then high_usage_alerts devices threshold_kwh else []

/-- The three running sums accumulated by `totals` in `energy_monitor/reporting.py`. -/
structure Totals where
  daily : ℚ
  weekly : ℚ
  monthly : ℚ
deriving DecidableEq

/-- `totals` from `energy_monitor/reporting.py`: left-to-right accumulation
of daily/weekly/monthly cost over the device list, starting from 0.0. -/
def totals (devices : List Device) (price_per_kwh : ℚ) : Totals :=
  devices.foldl
    (fun t d =>
      Totals.mk (t.daily + daily_cost d.wattage d.avg_hours_per_day price_per_kwh)
        (t.weekly + weekly_cost d.wattage d.avg_hours_per_day price_per_kwh)
        (t.monthly + monthly_cost d.wattage d.avg_hours_per_day price_per_kwh))
    (Totals.mk 0 0 0)

/-- One `by_room[key] += value` step of `collections.defaultdict(float)`:
the first entry with the key is incremented, and a missing key is appended
at the end (Python dict insertion order). -/
def upsert : List (String × ℚ) → String → ℚ → List (String × ℚ)
  | [], r, c => [(r, c)]
  | (r0, v) :: rest, r, c =>
      if r0 = r then (r0, v + c) :: rest else (r0, v) :: upsert rest r c

/-- `room_monthly_totals` from `energy_monitor/reporting.py`: a defaultdict
accumulation of monthly cost keyed by room location. -/
def room_monthly_totals (devices : List Device) (price_per_kwh : ℚ) : List (String × ℚ) :=
  devices.foldl
    (fun m d =>
      upsert m d.room_location (monthly_cost d.wattage d.avg_hours_per_day price_per_kwh))
    []

/-- Dictionary lookup (`by_room[r]` read access) on the association-list
model of the Python dict. -/
def roomLookup : List (String × ℚ) → String → Option ℚ
  | [], _ => none
  | (r0, v) :: rest, r => if r0 = r then some v else roomLookup rest r

/-- The summed monthly cost of all devices located in room `r` (the value
`room_monthly_totals` is expected to associate with `r`). -/
def roomSum (devices : List Device) (price_per_kwh : ℚ) (r : String) : ℚ :=
  ((devices.filter (fun d => decide (d.room_location = r))).map
    (fun d => monthly_cost d.wattage d.avg_hours_per_day price_per_kwh)).sum

/-- Python `str.ljust`: pad on the right with spaces up to the width
(unchanged when already at least that wide). -/
def ljust (s : String) (w : Nat) : String :=
  s ++ String.mk (List.replicate (w - s.length) ' ')

/-- The inner loop of `format_table` in `energy_monitor/reporting.py`:
`widths[i] = max(widths[i], len(cell))` for each cell of one row. -/
def updateWidths : List Nat → List String → List Nat
  | ws, [] => ws
  | [], _ => []
  | w :: ws, c :: cs => max w c.length :: updateWidths ws cs

/-- The `widths` list computed by `format_table`: header lengths, then the
cell-length maxima folded in row by row. -/
def table_widths (headers : List String) (rows : List (List String)) : List Nat :=
  rows.foldl updateWidths (headers.map String.length)

/-- `fmt_row` inside `format_table`: left-justified cells joined by a
vertical-bar separator. -/
def fmt_row (widths : List Nat) (r : List String) : String :=
  String.intercalate " | " (List.zipWith ljust r widths)

/-- The `sep` line inside `format_table`: dash runs of each column width
joined by the cross separator. -/
def sep_line (widths : List Nat) : String :=
  String.intercalate "-+-" (widths.map (fun w => String.mk (List.replicate w '-')))

/-- The `out` list built by `format_table`: header row, separator, body rows. -/
def format_table_lines (headers : List String) (rows : List (List String)) : List String :=
  fmt_row (table_widths headers rows) headers ::
    sep_line (table_widths headers rows) ::
      rows.map (fmt_row (table_widths headers rows))

/-- `format_table` from `energy_monitor/reporting.py`: the output lines
joined by newlines. -/
def format_table (headers : List String) (rows : List (List String)) : String :=
  String.intercalate "\n" (format_table_lines headers rows)

/-- Maximum of a list of naturals (0 for the empty list). -/
def listMax (l : List Nat) : Nat :=
  l.foldr max 0

/-- `extra_weekly` computed by `build_cost_report_text` in
`energy_monitor/reporting.py` (line 102). -/
def extra_weekly (extra_daily_cost : ℚ) : ℚ :=
  extra_daily_cost * 7

/-- `extra_monthly` computed by `build_cost_report_text` in
`energy_monitor/reporting.py` (line 103). -/
def extra_monthly (extra_daily_cost : ℚ) : ℚ :=
  extra_daily_cost * 30

/-- The three grand-total values printed by `build_cost_report_text`
(lines 122-124): fleet totals plus the extra cost at each horizon. -/
def grand_totals (devices : List Device) (price_per_kwh extra_daily_cost : ℚ) : Totals :=
  Totals.mk ((totals devices price_per_kwh).daily + extra_daily_cost)
    ((totals devices price_per_kwh).weekly + extra_weekly extra_daily_cost)
    ((totals devices price_per_kwh).monthly + extra_monthly extra_daily_cost)

/-- One entry of the `preds` list built by `build_predictions_text`
(lines 161-165): `(mcost, device, mkwh)` with `mcost = mkwh * price`. -/
def predEntry (price_per_kwh : ℚ) (d : Device) : ℚ × Device × ℚ :=
  (monthly_kwh d.wattage d.avg_hours_per_day * price_per_kwh, d,
    monthly_kwh d.wattage d.avg_hours_per_day)

/-- The descending comparison used by `preds.sort(reverse=True, key=...)`:
entry `a` may precede entry `b` when `b` does not have the larger key. -/
def predGE (a b : ℚ × Device × ℚ) : Prop :=
  b.1 ≤ a.1

instance : DecidableRel predGE :=
  fun a b => inferInstanceAs (Decidable (b.1 ≤ a.1))

instance : IsTotal (ℚ × Device × ℚ) predGE :=
  ⟨fun a b => le_total b.1 a.1⟩

instance : IsTrans (ℚ × Device × ℚ) predGE :=
  ⟨fun _ _ _ h1 h2 => le_trans h2 h1⟩

/-- The `preds` list after `preds.sort(reverse=True, key=lambda x: x[0])`:
Python's stable descending sort is modelled by stable insertion sort. -/
def preds_sorted (devices : List Device) (price_per_kwh : ℚ) : List (ℚ × Device × ℚ) :=
  List.insertionSort predGE (devices.map (predEntry price_per_kwh))

/-- `top3 = preds[:3]` from `build_predictions_text` (line 168). -/
def top3 (devices : List Device) (price_per_kwh : ℚ) : List (ℚ × Device × ℚ) :=
  (preds_sorted devices price_per_kwh).take 3

/-- The end-to-end example device of the spec: 1500 W, 13 h/day, Kitchen. -/
def exampleDevice : Device :=
  Device.mk "D1" "Heater" 1500 13 "Kitchen"

/-- A device with monthly cost 10.0 at price 1/3 (1000 W, 1 h/day). -/
def kitchenDevice1 : Device :=
  Device.mk "D1" "Oven" 1000 1 "Kitchen"

/-- A device with monthly cost 20.0 at price 1/3 (1000 W, 2 h/day). -/
def kitchenDevice2 : Device :=
  Device.mk "D2" "Fridge" 1000 2 "Kitchen"

/-- A device firing efficiency rules 2 and 3 (1000 W, 1/4 h/day). -/
def lowUsageDevice : Device :=
  Device.mk "D3" "Lamp" 1000 (1 / 4) "Hall"

/-- Claim C1: for every wattage `w > 0`, hours `h` in `[0,24]` and price
`p > 0`, the cost model satisfies `daily_kwh w h = w*h/1000`,
`cost_for_kwh k p = k*p`, `daily_cost = daily_kwh * p`,
`weekly_cost = 7 * daily_cost`, `monthly_cost = 30 * daily_cost` and
`monthly_kwh = 30 * daily_kwh`; at `w = 1500`, `h = 13`, `p = 0.10` the
values are 19.5 kWh/day, 1.95/day, 13.65/week and 58.5/month. -/
theorem cost_model_spec (w h p : ℚ) (hw : 0 < w) (hh0 : 0 ≤ h) (hh24 : h ≤ 24)
    (hp : 0 < p) :
    daily_kwh w h = w * h / 1000 ∧
    (∀ k : ℚ, cost_for_kwh k p = k * p) ∧
    daily_cost w h p = daily_kwh w h * p ∧
    weekly_cost w h p = 7 * daily_cost w h p ∧
    monthly_cost w h p = 30 * daily_cost w h p ∧
    monthly_kwh w h = 30 * daily_kwh w h ∧
    daily_kwh 1500 13 = 19.5 ∧
    daily_cost 1500 13 0.10 = 1.95 ∧
    weekly_cost 1500 13 0.10 = 13.65 ∧
    monthly_cost 1500 13 0.10 = 58.5 := by
  refine ⟨rfl, fun k => rfl, rfl, ?_, ?_, ?_, ?_, ?_, ?_, ?_⟩ <;>
    norm_num [weekly_cost, monthly_cost, monthly_kwh, daily_cost, daily_kwh,
      cost_for_kwh, DAYS_PER_WEEK, DAYS_PER_MONTH] <;> ring

/-- Witness for claim C1 at `w = 1500`, `h = 13`, `p = 0.10`. -/
theorem cost_model_spec_witness :
    (0 : ℚ) < 1500 ∧ (0 : ℚ) ≤ 13 ∧ (13 : ℚ) ≤ 24 ∧ (0 : ℚ) < 0.10 ∧
    monthly_cost 1500 13 0.10 = 58.5 :=
  ⟨by norm_num, by norm_num, by norm_num, by norm_num,
    (cost_model_spec 1500 13 0.10 (by norm_num) (by norm_num) (by norm_num)
      (by norm_num)).2.2.2.2.2.2.2.2.2⟩

/-- Claim C7: `validate_price_per_kwh` errors exactly when `price ≤ 0`,
`validate_device_values` errors exactly when `wattage ≤ 0` or `hours < 0`
or `hours > 24`, and on valid inputs both return normally. -/
theorem validation_spec (price wattage hours : ℚ) :
    ((∃ e, validate_price_per_kwh price = Except.error e) ↔ price ≤ 0) ∧
    ((∃ e, validate_device_values wattage hours = Except.error e) ↔
      wattage ≤ 0 ∨ hours < 0 ∨ 24 < hours) ∧
    (0 < price → validate_price_per_kwh price = Except.ok ()) ∧
    (0 < wattage → 0 ≤ hours → hours ≤ 24 →
      validate_device_values wattage hours = Except.ok ()) := by
  refine ⟨?_, ?_, ?_, ?_⟩
  · unfold validate_price_per_kwh
    split_ifs with h <;> simp [h]
  · unfold validate_device_values
    split_ifs with h1 h2 h3 <;> simp_all
  · intro h
    unfold validate_price_per_kwh
    rw [if_neg (not_le.mpr h)]
  · intro h1 h2 h3
    unfold validate_device_values
    rw [if_neg (not_le.mpr h1), if_neg (not_lt.mpr h2), if_neg (not_lt.mpr h3)]

/-- Witness for claim C7 at `price = 1`, `wattage = 1500`, `hours = 13`. -/
theorem validation_spec_witness :
    (0 : ℚ) < 1 ∧ validate_price_per_kwh 1 = Except.ok () ∧
    ((0 : ℚ) < 1500 ∧ (0 : ℚ) ≤ 13 ∧ (13 : ℚ) ≤ 24) ∧
    validate_device_values 1500 13 = Except.ok () :=
  ⟨by norm_num, (validation_spec 1 1500 13).2.2.1 (by norm_num), by norm_num,
    (validation_spec 1 1500 13).2.2.2 (by norm_num) (by norm_num) (by norm_num)⟩

/-- Claim C10: the ranking key `monthly_kwh(w,h) * p` computed inside
`build_predictions_text` coincides with `monthly_cost(w,h,p)`, so the
predictions ranking and the cost report agree on each device's monthly
cost. -/
theorem prediction_key_eq_monthly_cost (w h p : ℚ) :
    monthly_kwh w h * p = monthly_cost w h p ∧
    (∀ d : Device, (predEntry p d).1 = monthly_cost d.wattage d.avg_hours_per_day p) := by
  constructor
  · unfold monthly_kwh monthly_cost daily_cost cost_for_kwh daily_kwh
    ring
  · intro d
    unfold predEntry monthly_kwh monthly_cost daily_cost cost_for_kwh daily_kwh
    ring

/-- Counterexample to claim C2 as stated: with threshold 0, the engine
`high_usage_alerts` itself is not empty for a device with positive usage. -/
theorem high_usage_alerts_zero_threshold_not_empty :
    high_usage_alerts [exampleDevice] 0 ≠ [] := by
  have h : (0 : ℚ) < monthly_kwh 1500 13 := by
    norm_num [monthly_kwh, daily_kwh, DAYS_PER_MONTH]
  simp [high_usage_alerts, exampleDevice, h]

/-- Claim C2 (amended): `high_usage_alerts` treats the threshold literally —
a device produces an alert iff its monthly kWh strictly exceeds the
threshold, in device input order — hence with threshold 0 any device with
positive monthly kWh alerts; the empty sequence at threshold 0 is produced
by the caller-side gate in `main.py`, which invokes the engine only for
positive thresholds. -/
theorem high_usage_alerts_spec (devices : List Device) (T : ℚ) :
    high_usage_alerts devices T =
      (devices.filter
        (fun d => decide (T < monthly_kwh d.wattage d.avg_hours_per_day))).map
        (fun d => Alert.mk d (monthly_kwh d.wattage d.avg_hours_per_day) T) ∧
    main_alerts devices 0 = [] ∧
    (0 < T → main_alerts devices T = high_usage_alerts devices T) := by
  refine ⟨?_, ?_, ?_⟩
  · induction devices with
    | nil => rfl
    | cons d rest ih =>
        by_cases h : T < monthly_kwh d.wattage d.avg_hours_per_day <;>
          simp [high_usage_alerts, List.filterMap_cons, List.filter_cons, h] <;>
          simpa [high_usage_alerts] using ih
  · simp [main_alerts]
  · intro h
    simp [main_alerts, h]

/-- Witness for claim C2 (amended) at a positive threshold. -/
theorem high_usage_alerts_spec_witness :
    (0 : ℚ) < 1 ∧ main_alerts [exampleDevice] 1 = high_usage_alerts [exampleDevice] 1 :=
  ⟨by norm_num, (high_usage_alerts_spec [exampleDevice] 1).2.2 (by norm_num)⟩

/-- Claim C6: the grand totals of `build_cost_report_text` equal the fleet
totals plus the extra daily cost at each horizon (daily `+e`, weekly `+7e`,
monthly `+30e`); with `e = 2` the additions are 2, 14 and 60. -/
theorem grand_totals_spec (devices : List Device) (price_per_kwh extra_daily_cost : ℚ)
    (he : 0 ≤ extra_daily_cost) :
    grand_totals devices price_per_kwh extra_daily_cost =
      Totals.mk ((totals devices price_per_kwh).daily + extra_daily_cost)
        ((totals devices price_per_kwh).weekly + 7 * extra_daily_cost)
        ((totals devices price_per_kwh).monthly + 30 * extra_daily_cost) ∧
    grand_totals devices price_per_kwh 2 =
      Totals.mk ((totals devices price_per_kwh).daily + 2)
        ((totals devices price_per_kwh).weekly + 14)
        ((totals devices price_per_kwh).monthly + 60) := by
  constructor <;>
    · unfold grand_totals extra_weekly extra_monthly
      norm_num [mul_comm]

/-- Witness for claim C6 at `extra_daily_cost = 2`. -/
theorem grand_totals_spec_witness :
    (0 : ℚ) ≤ 2 ∧
    grand_totals [] 1 2 =
      Totals.mk ((totals [] 1).daily + 2) ((totals [] 1).weekly + 14)
        ((totals [] 1).monthly + 60) :=
  ⟨by norm_num, (grand_totals_spec [] 1 2 (by norm_num)).2⟩

/-- Accumulator-generalised form of the `totals` loop: folding the three
running sums from any start adds the per-device cost sums componentwise. -/
theorem totals_foldl_aux (p : ℚ) (devices : List Device) : ∀ t : Totals,
    devices.foldl
      (fun t d =>
        Totals.mk (t.daily + daily_cost d.wattage d.avg_hours_per_day p)
          (t.weekly + weekly_cost d.wattage d.avg_hours_per_day p)
          (t.monthly + monthly_cost d.wattage d.avg_hours_per_day p))
      t =
      Totals.mk (t.daily + (devices.map (fun d => daily_cost d.wattage d.avg_hours_per_day p)).sum)
        (t.weekly + (devices.map (fun d => weekly_cost d.wattage d.avg_hours_per_day p)).sum)
        (t.monthly + (devices.map (fun d => monthly_cost d.wattage d.avg_hours_per_day p)).sum) := by
  induction devices with
  | nil => intro t; simp
  | cons d rest ih =>
      intro t
      simp only [List.foldl_cons, List.map_cons, List.sum_cons]
      rw [ih]
      simp [add_assoc]

/-- `totals` equals the componentwise list sums of the per-device costs. -/
theorem totals_eq (devices : List Device) (p : ℚ) :
    totals devices p =
      Totals.mk ((devices.map (fun d => daily_cost d.wattage d.avg_hours_per_day p)).sum)
        ((devices.map (fun d => weekly_cost d.wattage d.avg_hours_per_day p)).sum)
        ((devices.map (fun d => monthly_cost d.wattage d.avg_hours_per_day p)).sum) := by
  unfold totals
  rw [totals_foldl_aux]
  simp

/-- Claim C4: for every device list and price `p > 0`, `totals` returns
exactly the sums over all devices of the independently computed daily,
weekly and monthly costs, with no device counted twice. -/
theorem totals_spec (devices : List Device) (p : ℚ) (hp : 0 < p) :
    totals devices p =
      Totals.mk ((devices.map (fun d => daily_cost d.wattage d.avg_hours_per_day p)).sum)
        ((devices.map (fun d => weekly_cost d.wattage d.avg_hours_per_day p)).sum)
        ((devices.map (fun d => monthly_cost d.wattage d.avg_hours_per_day p)).sum) :=
  totals_eq devices p

/-- Witness for claim C4 at the example device and price 1. -/
theorem totals_spec_witness :
    (0 : ℚ) < 1 ∧
    totals [exampleDevice] 1 =
      Totals.mk (([exampleDevice].map (fun d => daily_cost d.wattage d.avg_hours_per_day 1)).sum)
        (([exampleDevice].map (fun d => weekly_cost d.wattage d.avg_hours_per_day 1)).sum)
        (([exampleDevice].map (fun d => monthly_cost d.wattage d.avg_hours_per_day 1)).sum) :=
  ⟨by norm_num, totals_spec [exampleDevice] 1 (by norm_num)⟩

/-- Filtering on an exact ranking key commutes with `orderedInsert` for the
descending comparison: the inserted entry lands in front of every entry
with the same key. -/
theorem filter_orderedInsert_key (c : ℚ) (x : ℚ × Device × ℚ) :
    ∀ l : List (ℚ × Device × ℚ),
      (List.orderedInsert predGE x l).filter (fun e => decide (e.1 = c)) =
        if x.1 = c then x :: l.filter (fun e => decide (e.1 = c))
        else l.filter (fun e => decide (e.1 = c))
  | [] => by
      by_cases h : x.1 = c <;> simp [List.orderedInsert, List.filter_cons, h]
  | b :: l => by
      simp only [List.orderedInsert]
      by_cases hr : predGE x b
      · rw [if_pos hr]
        by_cases h : x.1 = c <;> simp [List.filter_cons, h]
      · rw [if_neg hr]
        have hxb : x.1 < b.1 := lt_of_not_le hr
        by_cases h : x.1 = c
        · have hb : ¬b.1 = c := h ▸ ne_of_gt hxb
          simp [List.filter_cons, hb, filter_orderedInsert_key c x l, h]
        · simp [List.filter_cons, filter_orderedInsert_key c x l, h]

/-- Stability of the descending insertion sort: the subsequence of entries
with any fixed ranking key is unchanged by sorting. -/
theorem filter_insertionSort_key (c : ℚ) :
    ∀ l : List (ℚ × Device × ℚ),
      (List.insertionSort predGE l).filter (fun e => decide (e.1 = c)) =
        l.filter (fun e => decide (e.1 = c))
  | [] => rfl
  | x :: l => by
      simp only [List.insertionSort]
      rw [filter_orderedInsert_key]
      by_cases h : x.1 = c <;>
        simp [h, filter_insertionSort_key c l, List.filter_cons]

/-- Claim C3: the ranking of `build_predictions_text` computes the monthly
cost per device, sorts descending by it, is stable on ties (the
subsequence at each key keeps the original input order), and returns the
first 3 entries — all entries when fewer than 3 devices exist. -/
theorem top_by_projected_cost_spec (devices : List Device) (price_per_kwh : ℚ) :
    List.Perm (preds_sorted devices price_per_kwh) (devices.map (predEntry price_per_kwh)) ∧
    List.Sorted predGE (preds_sorted devices price_per_kwh) ∧
    (∀ d : Device, (predEntry price_per_kwh d).1 =
      monthly_cost d.wattage d.avg_hours_per_day price_per_kwh) ∧
    (∀ c : ℚ,
      (preds_sorted devices price_per_kwh).filter (fun e => decide (e.1 = c)) =
        (devices.map (predEntry price_per_kwh)).filter (fun e => decide (e.1 = c))) ∧
    top3 devices price_per_kwh = (preds_sorted devices price_per_kwh).take 3 ∧
    (top3 devices price_per_kwh).length = min 3 devices.length ∧
    (devices.length ≤ 3 → top3 devices price_per_kwh = preds_sorted devices price_per_kwh) := by
  refine ⟨List.perm_insertionSort predGE _, List.sorted_insertionSort predGE _, ?_, ?_,
    rfl, ?_, ?_⟩
  · intro d
    unfold predEntry monthly_cost monthly_kwh daily_cost cost_for_kwh daily_kwh
    ring
  · intro c
    exact filter_insertionSort_key c _
  · unfold top3 preds_sorted
    rw [List.length_take, List.length_insertionSort, List.length_map]
  · intro hlen
    unfold top3
    apply List.take_of_length_le
    unfold preds_sorted
    rw [List.length_insertionSort, List.length_map]
    exact hlen

/-- Witness for claim C3: with a single device the truncation returns the
whole sorted list. -/
theorem top_by_projected_cost_spec_witness :
    [exampleDevice].length ≤ 3 ∧
    top3 [exampleDevice] 1 = preds_sorted [exampleDevice] 1 :=
  ⟨by simp, (top_by_projected_cost_spec [exampleDevice] 1).2.2.2.2.2.2 (by simp)⟩

/-- An `upsert` step adds its increment to the sum of the dict values. -/
theorem snd_sum_upsert (r : String) (c : ℚ) :
    ∀ m : List (String × ℚ),
      ((upsert m r c).map Prod.snd).sum = (m.map Prod.snd).sum + c
  | [] => by simp [upsert]
  | (r0, v) :: rest => by
      by_cases h : r0 = r <;>
        simp [upsert, h, snd_sum_upsert r c rest] <;> ring

/-- The defaultdict fold adds the summed monthly costs to the sum of the
starting dict values. -/
theorem snd_sum_rmt_aux (p : ℚ) : ∀ (devices : List Device) (m : List (String × ℚ)),
    ((devices.foldl
        (fun m d => upsert m d.room_location (monthly_cost d.wattage d.avg_hours_per_day p))
        m).map Prod.snd).sum =
      (m.map Prod.snd).sum +
        (devices.map (fun d => monthly_cost d.wattage d.avg_hours_per_day p)).sum
  | [], m => by simp
  | d :: rest, m => by
      simp only [List.foldl_cons, List.map_cons, List.sum_cons]
      rw [snd_sum_rmt_aux p rest, snd_sum_upsert]
      ring

/-- Lookup after an `upsert` step: the touched key gains the increment
(with 0 for a previously missing key); other keys are unchanged. -/
theorem roomLookup_upsert (r r' : String) (c : ℚ) :
    ∀ m : List (String × ℚ),
      roomLookup (upsert m r c) r' =
        if r = r' then some ((roomLookup m r').getD 0 + c) else roomLookup m r'
  | [] => by
      by_cases h : r = r' <;> simp [upsert, roomLookup, h]
  | (r0, v) :: rest => by
      by_cases h0 : r0 = r
      · subst h0
        by_cases h' : r0 = r' <;> simp [upsert, roomLookup, h']
      · have hr : ¬r = r0 := fun hh => h0 hh.symm
        by_cases h' : r0 = r'
        · subst h'
          simp [upsert, roomLookup, h0, hr]
        · simp [upsert, roomLookup, h0, h', roomLookup_upsert r r' c rest]

/-- Lookup in the defaultdict fold from an arbitrary starting dict: each key
accumulates the summed monthly cost of the devices in that room. -/
theorem roomLookup_rmt_aux (p : ℚ) :
    ∀ (devices : List Device) (m : List (String × ℚ)) (r : String),
      roomLookup
        (devices.foldl
          (fun m d => upsert m d.room_location (monthly_cost d.wattage d.avg_hours_per_day p))
          m) r =
        if r ∈ devices.map (fun d => d.room_location) then
          some ((roomLookup m r).getD 0 + roomSum devices p r)
        else (roomLookup m r).map (fun v => v + roomSum devices p r)
  | [], m, r => by
      cases h : roomLookup m r <;> simp [roomSum, h]
  | d :: rest, m, r => by
      simp only [List.foldl_cons]
      rw [roomLookup_rmt_aux p rest, roomLookup_upsert]
      by_cases hd : d.room_location = r
      · have hmem : r ∈ (d :: rest).map (fun d => d.room_location) := by simp [hd]
        have hS : roomSum (d :: rest) p r =
            monthly_cost d.wattage d.avg_hours_per_day p + roomSum rest p r := by
          simp [roomSum, List.filter_cons, hd]
        rw [if_pos hd, if_pos hmem, hS]
        by_cases hm : r ∈ rest.map (fun d => d.room_location)
        · rw [if_pos hm]
          simp [add_assoc]
        · rw [if_neg hm]
          simp [add_assoc]
      · have hne : r ≠ d.room_location := fun hh => hd hh.symm
        have hS : roomSum (d :: rest) p r = roomSum rest p r := by
          simp [roomSum, List.filter_cons, hd]
        rw [if_neg hd, hS]
        by_cases hm : r ∈ rest.map (fun d => d.room_location)
        · have h1 : r ∈ (d :: rest).map (fun d => d.room_location) := by simp [hm]
          rw [if_pos hm, if_pos h1]
        · have h1 : r ∉ (d :: rest).map (fun d => d.room_location) := by
            simp [hm, hne]
          rw [if_neg hm, if_neg h1]

/-- `room_monthly_totals` associates with a room exactly the summed monthly
cost of its devices, and holds no key for a room with no device. -/
theorem roomLookup_rmt (devices : List Device) (p : ℚ) (r : String) :
    roomLookup (room_monthly_totals devices p) r =
      if r ∈ devices.map (fun d => d.room_location) then some (roomSum devices p r)
      else none := by
  unfold room_monthly_totals
  rw [roomLookup_rmt_aux]
  by_cases hm : r ∈ devices.map (fun d => d.room_location) <;> simp [roomLookup, hm]

/-- Claim C5: the values of `room_monthly_totals` sum to the monthly
component of `totals`; the grouping partitions the devices by room
location (each key maps to the summed monthly cost of exactly the devices
in that room) and, as a mapping, does not depend on device input order;
two devices in the same room with monthly costs 10 and 20 yield the single
room total 30. -/
theorem room_monthly_totals_spec (devices : List Device) (price_per_kwh : ℚ) :
    ((room_monthly_totals devices price_per_kwh).map Prod.snd).sum =
      (totals devices price_per_kwh).monthly ∧
    (∀ r : String,
      roomLookup (room_monthly_totals devices price_per_kwh) r =
        if r ∈ devices.map (fun d => d.room_location) then
          some (roomSum devices price_per_kwh r)
        else none) ∧
    (∀ devices₂ : List Device, List.Perm devices devices₂ → ∀ r : String,
      roomLookup (room_monthly_totals devices price_per_kwh) r =
        roomLookup (room_monthly_totals devices₂ price_per_kwh) r) ∧
    room_monthly_totals [kitchenDevice1, kitchenDevice2] (1 / 3) = [("Kitchen", 30)] := by
  refine ⟨?_, fun r => roomLookup_rmt devices price_per_kwh r, ?_, ?_⟩
  · unfold room_monthly_totals
    rw [snd_sum_rmt_aux, totals_eq]
    simp
  · intro devices₂ hperm r
    rw [roomLookup_rmt, roomLookup_rmt]
    have hmem : (r ∈ devices.map (fun d => d.room_location)) ↔
        (r ∈ devices₂.map (fun d => d.room_location)) := (hperm.map _).mem_iff
    have hsum : roomSum devices price_per_kwh r = roomSum devices₂ price_per_kwh r :=
      ((hperm.filter _).map _).sum_eq
    by_cases hm : r ∈ devices.map (fun d => d.room_location)
    · rw [if_pos hm, if_pos (hmem.mp hm), hsum]
    · rw [if_neg hm, if_neg (fun hc => hm (hmem.mpr hc))]
  · norm_num [room_monthly_totals, upsert, monthly_cost, daily_cost, cost_for_kwh,
      daily_kwh, DAYS_PER_MONTH, kitchenDevice1, kitchenDevice2]

/-- Witness for claim C5: swapping the two kitchen devices leaves the room
mapping unchanged. -/
theorem room_monthly_totals_spec_witness :
    List.Perm [kitchenDevice1, kitchenDevice2] [kitchenDevice2, kitchenDevice1] ∧
    roomLookup (room_monthly_totals [kitchenDevice1, kitchenDevice2] (1 / 3)) "Kitchen" =
      roomLookup (room_monthly_totals [kitchenDevice2, kitchenDevice1] (1 / 3)) "Kitchen" :=
  ⟨List.Perm.swap kitchenDevice2 kitchenDevice1 [],
    (room_monthly_totals_spec [kitchenDevice1, kitchenDevice2] (1 / 3)).2.2.1
      [kitchenDevice2, kitchenDevice1] (List.Perm.swap kitchenDevice2 kitchenDevice1 [])
      "Kitchen"⟩

/-- One `updateWidths` pass preserves the number of columns. -/
theorem length_updateWidths : ∀ (ws : List Nat) (r : List String),
    (updateWidths ws r).length = ws.length
  | ws, [] => by cases ws <;> rfl
  | [], _ :: _ => rfl
  | w :: ws, c :: cs => by simp [updateWidths, length_updateWidths ws cs]

/-- The width fold preserves the number of columns. -/
theorem length_widths_foldl : ∀ (rows : List (List String)) (ws : List Nat),
    (rows.foldl updateWidths ws).length = ws.length
  | [], _ => rfl
  | r :: rows, ws => by
      simp only [List.foldl_cons]
      rw [length_widths_foldl rows, length_updateWidths]

/-- One `updateWidths` pass takes the columnwise maximum with the row's
cell lengths. -/
theorem getD_updateWidths : ∀ (ws : List Nat) (r : List String) (i : Nat),
    r.length = ws.length → i < ws.length →
    (updateWidths ws r).getD i 0 = max (ws.getD i 0) ((r.getD i "").length)
  | ws, [], i, hl, hi => absurd hi (by simp at hl; omega)
  | [], _ :: _, i, _, hi => absurd hi (by simp)
  | w :: ws, c :: cs, 0, _, _ => by simp [updateWidths]
  | w :: ws, c :: cs, i + 1, hl, hi => by
      simp only [updateWidths, List.getD_cons_succ]
      exact getD_updateWidths ws cs i (by simpa using hl)
        (by simp only [List.length_cons] at hi; omega)

/-- The width fold computes, per column, the maximum of the starting width
and all cell lengths of that column. -/
theorem getD_widths_foldl : ∀ (rows : List (List String)) (ws : List Nat) (i : Nat),
    (∀ r ∈ rows, r.length = ws.length) → i < ws.length →
    (rows.foldl updateWidths ws).getD i 0 =
      max (ws.getD i 0) (listMax (rows.map (fun r => (r.getD i "").length)))
  | [], ws, i, _, _ => by simp [listMax]
  | r :: rows, ws, i, hl, hi => by
      have hl' : ∀ r' ∈ rows, r'.length = (updateWidths ws r).length := by
        intro r' hr'
        rw [length_updateWidths]
        exact hl r' (List.mem_cons_of_mem r hr')
      have hi' : i < (updateWidths ws r).length := by
        rw [length_updateWidths]
        exact hi
      simp only [List.foldl_cons, List.map_cons]
      rw [getD_widths_foldl rows (updateWidths ws r) i hl' hi',
        getD_updateWidths ws r i (hl r (List.mem_cons_self r rows)) hi]
      simp [listMax, Nat.max_assoc]

/-- Reading an entry of the mapped header-length list is the length of the
corresponding header. -/
theorem getD_map_length : ∀ (l : List String) (i : Nat), i < l.length →
    (l.map String.length).getD i 0 = (l.getD i "").length
  | [], _, hi => absurd hi (by simp)
  | _ :: _, 0, _ => rfl
  | _ :: l, i + 1, hi => by
      simp only [List.map_cons, List.getD_cons_succ]
      exact getD_map_length l i (by simp only [List.length_cons] at hi; omega)

/-- Claim C8: for headers and rows of matching length, `format_table`
produces a header line, a separator line and one line per row (2 + number
of rows lines in total); each column width is the maximum of the header
length and all cell lengths in that column; cells are left-justified and
joined by a vertical-bar separator, and the separator line consists of
dash runs of the column widths joined by the cross separator. -/
theorem format_table_spec (headers : List String) (rows : List (List String))
    (hrows : ∀ r ∈ rows, r.length = headers.length) :
    (format_table_lines headers rows).length = 2 + rows.length ∧
    (∀ i, i < headers.length →
      (table_widths headers rows).getD i 0 =
        max ((headers.getD i "").length)
          (listMax (rows.map (fun r => (r.getD i "").length)))) ∧
    format_table headers rows = String.intercalate "\n" (format_table_lines headers rows) ∧
    format_table_lines headers rows =
      fmt_row (table_widths headers rows) headers ::
        sep_line (table_widths headers rows) ::
          rows.map (fmt_row (table_widths headers rows)) ∧
    (∀ ws r, fmt_row ws r = String.intercalate " | " (List.zipWith ljust r ws)) ∧
    (∀ s w, ljust s w = s ++ String.mk (List.replicate (w - s.length) ' ')) ∧
    (∀ ws, sep_line ws =
      String.intercalate "-+-" (ws.map (fun w => String.mk (List.replicate w '-')))) := by
  refine ⟨?_, ?_, rfl, rfl, fun ws r => rfl, fun s w => rfl, fun ws => rfl⟩
  · have h : (format_table_lines headers rows).length = rows.length + 2 := by
      simp [format_table_lines]
    omega
  · intro i hi
    have hl : ∀ r ∈ rows, r.length = (headers.map String.length).length := by
      intro r hr
      rw [List.length_map]
      exact hrows r hr
    have hi' : i < (headers.map String.length).length := by
      rw [List.length_map]
      exact hi
    unfold table_widths
    rw [getD_widths_foldl rows (headers.map String.length) i hl hi',
      getD_map_length headers i hi]

/-- Witness for claim C8 on a concrete 2-column, 2-row table. -/
theorem format_table_spec_witness :
    (∀ r ∈ ([["a", "bcdef"], ["gh", "i"]] : List (List String)),
      r.length = (["ID", "Name"] : List String).length) ∧
    (format_table_lines ["ID", "Name"] [["a", "bcdef"], ["gh", "i"]]).length =
      2 + ([["a", "bcdef"], ["gh", "i"]] : List (List String)).length :=
  ⟨by simp, (format_table_spec ["ID", "Name"] [["a", "bcdef"], ["gh", "i"]] (by simp)).1⟩

/-- The three suggestion messages are pairwise distinct strings. -/
theorem suggestion_msgs_distinct :
    power_saving_suggestion ≠ off_peak_suggestion ∧
    power_saving_suggestion ≠ low_usage_suggestion ∧
    off_peak_suggestion ≠ low_usage_suggestion := by
  refine ⟨?_, ?_, ?_⟩ <;> decide

/-- Rules 1 and 3 of `efficiency_suggestions` are mutually exclusive, so at
most two suggestions are ever produced for one device. -/
theorem eff_length_le_two (d : Device) : (efficiency_suggestions d).length ≤ 2 := by
  unfold efficiency_suggestions
  by_cases h1 : 12 < d.avg_hours_per_day
  · by_cases h3 : 0 < d.avg_hours_per_day ∧ d.avg_hours_per_day ≤ 1 / 4
    · exact absurd h3.2 (by linarith)
    · rw [if_pos h1, if_neg h3]
      by_cases h2 : 1000 ≤ d.wattage
      · rw [if_pos h2]
        simp
      · rw [if_neg h2]
        simp
  · rw [if_neg h1]
    by_cases h2 : 1000 ≤ d.wattage
    · rw [if_pos h2]
      by_cases h3 : 0 < d.avg_hours_per_day ∧ d.avg_hours_per_day ≤ 1 / 4
      · rw [if_pos h3]
        simp
      · rw [if_neg h3]
        simp
    · rw [if_neg h2]
      by_cases h3 : 0 < d.avg_hours_per_day ∧ d.avg_hours_per_day ≤ 1 / 4
      · rw [if_pos h3]
        simp
      · rw [if_neg h3]
        simp

/-- Counterexample to claim C9 as stated: no device can fire all three
rules simultaneously, because rule 1 needs more than 12 hours per day and
rule 3 needs at most a quarter hour per day. -/
theorem efficiency_rules_not_all_simultaneous :
    ¬∃ d : Device,
      efficiency_suggestions d =
        [power_saving_suggestion, off_peak_suggestion, low_usage_suggestion] := by
  rintro ⟨d, hd⟩
  have h := eff_length_le_two d
  rw [hd] at h
  simp at h

/-- Claim C9 (amended): `efficiency_suggestions` evaluates exactly the
three rules — each message is present iff its rule condition holds — and
the returned suggestions follow rule insertion order 1,2,3; rules 1 and 2,
or 2 and 3, may fire simultaneously, but rules 1 and 3 are mutually
exclusive, so at most two rules ever fire for one device; for a device
with wattage 1500 and hours 13, rules 1 and 2 fire and rule 3 does not. -/
theorem efficiency_suggestions_spec (d : Device) :
    (power_saving_suggestion ∈ efficiency_suggestions d ↔ 12 < d.avg_hours_per_day) ∧
    (off_peak_suggestion ∈ efficiency_suggestions d ↔ 1000 ≤ d.wattage) ∧
    (low_usage_suggestion ∈ efficiency_suggestions d ↔
      0 < d.avg_hours_per_day ∧ d.avg_hours_per_day ≤ 1 / 4) ∧
    List.Sublist (efficiency_suggestions d)
      [power_saving_suggestion, off_peak_suggestion, low_usage_suggestion] ∧
    (efficiency_suggestions d).length ≤ 2 ∧
    efficiency_suggestions exampleDevice = [power_saving_suggestion, off_peak_suggestion] ∧
    off_peak_suggestion ∈ efficiency_suggestions lowUsageDevice ∧
    low_usage_suggestion ∈ efficiency_suggestions lowUsageDevice := by
  obtain ⟨ne12, ne13, ne23⟩ := suggestion_msgs_distinct
  have hex : efficiency_suggestions exampleDevice =
      [power_saving_suggestion, off_peak_suggestion] := by
    unfold efficiency_suggestions exampleDevice
    norm_num
  have hlow : efficiency_suggestions lowUsageDevice =
      [off_peak_suggestion, low_usage_suggestion] := by
    unfold efficiency_suggestions lowUsageDevice
    norm_num
  refine ⟨?_, ?_, ?_, ?_, eff_length_le_two d, hex, by rw [hlow]; simp, by rw [hlow]; simp⟩
  · unfold efficiency_suggestions
    by_cases h1 : 12 < d.avg_hours_per_day <;>
      by_cases h2 : 1000 ≤ d.wattage <;>
        by_cases h3 : 0 < d.avg_hours_per_day ∧ d.avg_hours_per_day ≤ 1 / 4 <;>
          simp [h1, h2, h3, ne12, ne13]
  · unfold efficiency_suggestions
    by_cases h1 : 12 < d.avg_hours_per_day <;>
      by_cases h2 : 1000 ≤ d.wattage <;>
        by_cases h3 : 0 < d.avg_hours_per_day ∧ d.avg_hours_per_day ≤ 1 / 4 <;>
          simp [h1, h2, h3, Ne.symm ne12, ne23]
  · unfold efficiency_suggestions
    by_cases h1 : 12 < d.avg_hours_per_day <;>
      by_cases h2 : 1000 ≤ d.wattage <;>
        by_cases h3 : 0 < d.avg_hours_per_day ∧ d.avg_hours_per_day ≤ 1 / 4 <;>
          simp [h1, h2, h3, Ne.symm ne13, Ne.symm ne23]
  · unfold efficiency_suggestions
    by_cases h1 : 12 < d.avg_hours_per_day <;>
      by_cases h2 : 1000 ≤ d.wattage <;>
        by_cases h3 : 0 < d.avg_hours_per_day ∧ d.avg_hours_per_day ≤ 1 / 4 <;>
          simp only [h1, h2, h3, if_true, if_false, List.append_nil, List.nil_append,
            List.append_assoc, if_pos, if_neg, not_false_iff] <;>
          decide

end EnergyMonitor
